import Mathlib

/-!
Shallow embedding of the BizlyticsApp backend core: the session/token
validation state machine (requireAuth middleware, GET /api/auth/me) and the
billing-event reconciliation pipeline (src/routes/webhooks.js), together with
the entitlement read paths (src/database.js getUserStats, dashboard overview)
and the state-mutating REST operations (registration, login, profile, alerts,
integrations, subscription management).

The relational store is modelled as lists of rows; SERIAL columns are modelled
by explicit counters carried in the database state.  Timestamps are integers
(milliseconds).  External collaborators are modelled as parameters: the JWT
verifier is a function `String → Option Nat` (returning the embedded user id
of a structurally valid, correctly signed token), the bcrypt credential
verifier is a function `String → String → Bool`, and values produced by the
Stripe API (customer ids, subscription objects) are explicit arguments of the
operations that receive them.  Locale date formatting inside alert message
strings is modelled by rendering the raw timestamp.
-/

namespace Bizlytics

/-- A row of the users table (src/database.js lines 29-41). -/
structure User where
  id : Nat
  email : String
  password_hash : String
  name : String
  company_name : Option String
  subscription_status : String
  stripe_customer_id : Option String
  deriving DecidableEq, Repr

/-- A row of the sessions table (src/database.js lines 101-109). -/
structure Session where
  user_id : Nat
  session_token : String
  expires_at : Int
  deriving DecidableEq, Repr

/-- A row of the subscriptions table (src/database.js lines 43-56).
`created_at` is the creation sequence number (SERIAL-like, strictly
increasing), used by the ORDER BY created_at DESC read paths. -/
structure Subscription where
  user_id : Nat
  stripe_subscription_id : String
  status : String
  plan_type : String
  current_period_start : Int
  current_period_end : Int
  cancel_at_period_end : Bool
  created_at : Nat
  deriving DecidableEq, Repr

/-- A row of the alerts table (src/database.js lines 87-99). -/
structure Alert where
  id : Nat
  user_id : Nat
  alert_type : String
  title : String
  message : String
  severity : String
  is_read : Bool
  deriving DecidableEq, Repr

/-- A row of the integrations table (src/database.js lines 58-72). -/
structure Integration where
  id : Nat
  user_id : Nat
  integration_type : String
  integration_name : String
  is_active : Bool
  deriving DecidableEq, Repr

/-- A row of the dashboard_data table (src/database.js lines 74-85). -/
structure DashboardData where
  user_id : Nat
  integration_id : Nat
  data_type : String
  deriving DecidableEq, Repr

/-- The relational store, with counters for the SERIAL id columns. -/
structure DB where
  users : List User
  sessions : List Session
  subscriptions : List Subscription
  alerts : List Alert
  integrations : List Integration
  dashboard_data : List DashboardData
  userSeq : Nat
  subSeq : Nat
  alertSeq : Nat
  integSeq : Nat
  deriving DecidableEq, Repr

/-- SQL UPDATE ... WHERE: apply `f` to every row satisfying `q`. -/
def updateWhere (q : α → Bool) (f : α → α) (l : List α) : List α :=
  l.map fun x => if q x then f x else x

/-- SQL DELETE ... WHERE: drop every row satisfying `q`. -/
def deleteWhere (q : α → Bool) (l : List α) : List α :=
  l.filter fun x => !(q x)

/-! ## Session Guard (requireAuth middleware, src/unnamed/part_001 lines 7-39,
and the identical inline logic of GET /api/auth/me, src/routes/auth.js
lines 193-233). -/

/-- The auth error taxonomy of section 7 of the spec, mapped onto the 401
responses of the code: MissingToken = "Token requerido" / "Token no
proporcionado", InvalidToken = "Token inválido" (jwt.verify threw),
UnknownSession = "Sesión inválida" / "Sesión no encontrada",
ExpiredSession = "Sesión expirada". -/
inductive AuthError where
  | MissingToken
  | InvalidToken
  | UnknownSession
  | ExpiredSession
  deriving DecidableEq, Repr

/-- The requireAuth middleware (src/unnamed/part_001 lines 7-39).
`verify` models jwt.verify with the configured secret: `some uid` when the
token is structurally valid and correctly signed with embedded user id `uid`,
`none` when jwt.verify throws.  Returns the authentication outcome together
with the store state after the call (the expired branch deletes the session
row before rejecting). -/
def requireAuth (verify : String → Option Nat) (now : Int)
    (token? : Option String) (db : DB) : Except AuthError Nat × DB :=
  match token? with
  | none => (.error .MissingToken, db)
  | some token =>
    match verify token with
    | none => (.error .InvalidToken, db)
    | some userId =>
      match db.sessions.find? fun s =>
          s.session_token == token && s.user_id == userId with
      | none => (.error .UnknownSession, db)
      | some session =>
        if now > session.expires_at then
          (.error .ExpiredSession,
            { db with sessions :=
                deleteWhere (fun s => s.session_token == token) db.sessions })
        else
          (.ok userId, db)

/-- The periodic sweep (src/database.js cleanupExpiredSessions,
lines 188-198): DELETE FROM sessions WHERE expires_at < NOW(). -/
def cleanupExpiredSessions (now : Int) (db : DB) : DB :=
  { db with sessions := deleteWhere (fun s => s.expires_at < now) db.sessions }

/-- The UNIQUE constraint on sessions.session_token
(src/database.js line 105). -/
def sessionTokensUnique (db : DB) : Prop :=
  db.sessions.Pairwise fun a b => a.session_token ≠ b.session_token

instance (db : DB) : Decidable (sessionTokensUnique db) := by
  unfold sessionTokensUnique
  infer_instance

/-- Status of a user by id: the subscription_status of the first users row
with that id, as a SELECT ... WHERE id = $1 sees it. -/
def getStatusById (db : DB) (uid : Nat) : Option String :=
  (db.users.find? fun u => u.id == uid).map (·.subscription_status)

/-! ## Billing Event Reconciler (src/routes/webhooks.js). -/

/-- A Stripe subscription object as delivered in event.data.object
(fields read by the handlers in src/routes/webhooks.js).
`metadata_plan_type` models subscription.metadata?.plan_type. -/
structure StripeSubscription where
  id : String
  customer : String
  status : String
  metadata_plan_type : Option String
  current_period_start : Int
  current_period_end : Int
  cancel_at_period_end : Bool
  trial_end : Int
  deriving DecidableEq, Repr

/-- A Stripe invoice object as delivered in event.data.object. -/
structure StripeInvoice where
  id : String
  customer : String
  amount_paid : Int
  amount_due : Int
  currency : String
  deriving DecidableEq, Repr

/-- A Stripe customer object as delivered in event.data.object.
`email` is none when customer.email is absent/falsy. -/
structure StripeCustomer where
  id : String
  email : Option String
  deriving DecidableEq, Repr

/-- An inbound event envelope: a type string together with the data.object
payload.  In the JavaScript source the payload is one dynamic JSON object
that each handler projects differently; here the three projections are
carried side by side and the handler selected by the type string reads the
one it needs. -/
structure StripeEvent where
  type : String
  subscription : StripeSubscription
  invoice : StripeInvoice
  customerObj : StripeCustomer
  deriving DecidableEq, Repr

/-- createUserAlert (src/routes/webhooks.js lines 28-39): INSERT INTO alerts,
is_read defaulting to false. -/
def createUserAlert (db : DB) (userId : Nat)
    (type title message severity : String) : DB :=
  { db with
      alerts := db.alerts ++
        [⟨db.alertSeq, userId, type, title, message, severity, false⟩],
      alertSeq := db.alertSeq + 1 }

/-- getUserByStripeCustomer (src/routes/webhooks.js lines 42-53):
SELECT ... FROM users WHERE stripe_customer_id = $1, first row or null. -/
def getUserByStripeCustomer (db : DB) (stripeCustomerId : String) :
    Option User :=
  db.users.find? fun u => u.stripe_customer_id == some stripeCustomerId

/-- Rendering of new Date(ts).toLocaleDateString, abstracted to the raw
timestamp (presentation only; no claim inspects message text). -/
def localeDateString (ts : Int) : String :=
  toString ts

/-- handleSubscriptionCreated (src/routes/webhooks.js lines 116-170):
resolve the user from the billing customer reference, upsert the
subscriptions row keyed by stripe_subscription_id (ON CONFLICT updates
status and period fields but not user_id or plan_type), overwrite
users.subscription_status with the event status, append the welcome alert. -/
def handleSubscriptionCreated (sub : StripeSubscription) (db : DB) : DB :=
  match getUserByStripeCustomer db sub.customer with
  | none => db
  | some user =>
    let db1 :=
      if db.subscriptions.any
          (fun r => r.stripe_subscription_id == sub.id) then
        let subs1 :=
          updateWhere (fun r => r.stripe_subscription_id == sub.id)
            (fun r => { r with
              status := sub.status,
              current_period_start := sub.current_period_start,
              current_period_end := sub.current_period_end,
              cancel_at_period_end := sub.cancel_at_period_end })
            db.subscriptions
        { db with subscriptions := subs1 }
      else
        let subs1 := db.subscriptions ++
          [⟨user.id, sub.id, sub.status,
            sub.metadata_plan_type.getD "pro",
            sub.current_period_start, sub.current_period_end,
            sub.cancel_at_period_end, db.subSeq⟩]
        { db with subscriptions := subs1, subSeq := db.subSeq + 1 }
    let users2 :=
      updateWhere (fun u => u.id == user.id)
        (fun u => { u with subscription_status := sub.status }) db1.users
    let db2 := { db1 with users := users2 }
    createUserAlert db2 user.id "subscription_created"
      "¡Bienvenido a BizlyticsApp!"
      ("Tu suscripción " ++ sub.metadata_plan_type.getD "Pro" ++
        " está activa. ¡Comienza a conectar tus herramientas!")
      "success"

/-- handleSubscriptionUpdated (src/routes/webhooks.js lines 173-233):
resolve the user, UPDATE the subscriptions rows matching the billing
subscription reference (possibly zero rows), overwrite
users.subscription_status with the event status unconditionally, and append
a subscription_updated alert whose severity depends on the payload. -/
def handleSubscriptionUpdated (sub : StripeSubscription) (db : DB) : DB :=
  match getUserByStripeCustomer db sub.customer with
  | none => db
  | some user =>
    let subs1 :=
      updateWhere (fun r => r.stripe_subscription_id == sub.id)
        (fun r => { r with
          status := sub.status,
          current_period_start := sub.current_period_start,
          current_period_end := sub.current_period_end,
          cancel_at_period_end := sub.cancel_at_period_end })
        db.subscriptions
    let db1 := { db with subscriptions := subs1 }
    let users2 :=
      updateWhere (fun u => u.id == user.id)
        (fun u => { u with subscription_status := sub.status }) db1.users
    let db2 := { db1 with users := users2 }
    let title :=
      if sub.cancel_at_period_end then "Suscripción Programada para Cancelación"
      else if sub.status == "active" then "Suscripción Reactivada"
      else "Suscripción Actualizada"
    let message :=
      if sub.cancel_at_period_end then
        "Tu suscripción se cancelará el " ++
          localeDateString sub.current_period_end ++
          ". Puedes reactivarla en cualquier momento."
      else if sub.status == "active" then
        "¡Genial! Tu suscripción está activa nuevamente."
      else "Tu suscripción ha sido actualizada exitosamente."
    let severity :=
      if sub.cancel_at_period_end then "warning"
      else if sub.status == "active" then "success"
      else "info"
    createUserAlert db2 user.id "subscription_updated" title message severity

/-- handleSubscriptionDeleted (src/routes/webhooks.js lines 236-280):
resolve the user, set the matching subscription rows to canceled, set the
user to free, deactivate the premium-only integrations (google_analytics,
gmail), and append the cancellation warning alert. -/
def handleSubscriptionDeleted (sub : StripeSubscription) (db : DB) : DB :=
  match getUserByStripeCustomer db sub.customer with
  | none => db
  | some user =>
    let subs1 :=
      updateWhere (fun r => r.stripe_subscription_id == sub.id)
        (fun r => { r with status := "canceled" }) db.subscriptions
    let db1 := { db with subscriptions := subs1 }
    let users2 :=
      updateWhere (fun u => u.id == user.id)
        (fun u => { u with subscription_status := "free" }) db1.users
    let db2 := { db1 with users := users2 }
    let integs3 :=
      updateWhere
        (fun i => i.user_id == user.id &&
          (i.integration_type == "google_analytics" ||
            i.integration_type == "gmail"))
        (fun i => { i with is_active := false }) db2.integrations
    let db3 := { db2 with integrations := integs3 }
    createUserAlert db3 user.id "subscription_canceled"
      "Suscripción Cancelada"
      ("Tu suscripción ha sido cancelada. Puedes seguir usando las funciones" ++
        " básicas o reactivar tu plan en cualquier momento.")
      "warning"

/-- handlePaymentSucceeded (src/routes/webhooks.js lines 283-309):
resolve the user and append a success alert; no other mutation. -/
def handlePaymentSucceeded (invoice : StripeInvoice) (db : DB) : DB :=
  match getUserByStripeCustomer db invoice.customer with
  | none => db
  | some user =>
    createUserAlert db user.id "payment_succeeded"
      "Pago Procesado Exitosamente"
      ("Tu pago de €" ++ toString invoice.amount_paid ++
        " ha sido procesado. ¡Gracias por tu confianza!")
      "success"

/-- handlePaymentFailed (src/routes/webhooks.js lines 312-338):
resolve the user and append an error alert; no other mutation. -/
def handlePaymentFailed (invoice : StripeInvoice) (db : DB) : DB :=
  match getUserByStripeCustomer db invoice.customer with
  | none => db
  | some user =>
    createUserAlert db user.id "payment_failed"
      "Problema con el Pago"
      ("No pudimos procesar tu pago de €" ++ toString invoice.amount_due ++
        ". Por favor, actualiza tu método de pago para continuar con tu" ++
        " suscripción.")
      "error"

/-- handleTrialWillEnd (src/routes/webhooks.js lines 341-368):
resolve the user and append a warning alert; no other mutation. -/
def handleTrialWillEnd (sub : StripeSubscription) (db : DB) : DB :=
  match getUserByStripeCustomer db sub.customer with
  | none => db
  | some user =>
    createUserAlert db user.id "trial_ending"
      "Tu Prueba Gratuita Termina Pronto"
      ("Tu período de prueba gratuita termina el " ++
        localeDateString sub.trial_end ++
        ". Asegúrate de tener un método de pago configurado para continuar" ++
        " sin interrupciones.")
      "warning"

/-- handleCustomerCreated (src/routes/webhooks.js lines 371-398):
if the customer carries an email, bind the customer id to the first user
with that email and no stripe_customer_id yet. -/
def handleCustomerCreated (customer : StripeCustomer) (db : DB) : DB :=
  match customer.email with
  | none => db
  | some email =>
    match db.users.find?
        (fun u => u.email == email && u.stripe_customer_id == none) with
    | none => db
    | some user =>
      let users1 :=
        updateWhere (fun u => u.id == user.id)
          (fun u => { u with stripe_customer_id := some customer.id })
          db.users
      { db with users := users1 }

/-- Deployment configuration of the webhook endpoint:
whether STRIPE_SECRET_KEY and STRIPE_WEBHOOK_SECRET are set. -/
structure Config where
  stripeSecretKeyConfigured : Bool
  webhookSecretConfigured : Bool
  deriving DecidableEq, Repr

/-- An inbound webhook delivery: the parsed event envelope together with
whether its stripe-signature header verifies against the shared secret
(the outcome of stripe.webhooks.constructEvent). -/
structure WebhookRequest where
  sigValid : Bool
  event : StripeEvent
  deriving DecidableEq, Repr

/-- verifyStripeWebhook (src/routes/webhooks.js lines 9-25): with no
configured secret it returns the boolean true (development mode); with a
secret it returns the verified event or false. -/
inductive VerifyResult where
  | boolTrue
  | ok (e : StripeEvent)
  | failed
  deriving DecidableEq, Repr

def verifyStripeWebhook (cfg : Config) (req : WebhookRequest) : VerifyResult :=
  if !cfg.webhookSecretConfigured then .boolTrue
  else if req.sigValid then .ok req.event else .failed

/-- POST /api/webhooks/stripe (src/routes/webhooks.js lines 56-113):
returns the HTTP status together with the store state afterwards.
Verification failure answers 400 before any state transition; without
STRIPE_SECRET_KEY the route acknowledges in development mode without
processing; otherwise the switch dispatches on event.type, unrecognized
kinds falling through to the acknowledgment.  In the development-secret
branch the event variable is the boolean true, whose type field is
undefined, so the switch takes the default branch. -/
def postStripeWebhook (cfg : Config) (req : WebhookRequest) (db : DB) :
    Nat × DB :=
  match verifyStripeWebhook cfg req with
  | .failed => (400, db)
  | .boolTrue => (200, db)
  | .ok e =>
    if !cfg.stripeSecretKeyConfigured then (200, db)
    else
      let db1 :=
        if e.type == "customer.subscription.created" then
          handleSubscriptionCreated e.subscription db
        else if e.type == "customer.subscription.updated" then
          handleSubscriptionUpdated e.subscription db
        else if e.type == "customer.subscription.deleted" then
          handleSubscriptionDeleted e.subscription db
        else if e.type == "invoice.payment_succeeded" then
          handlePaymentSucceeded e.invoice db
        else if e.type == "invoice.payment_failed" then
          handlePaymentFailed e.invoice db
        else if e.type == "customer.subscription.trial_will_end" then
          handleTrialWillEnd e.subscription db
        else if e.type == "customer.created" then
          handleCustomerCreated e.customerObj db
        else db
      (200, db1)

/-- The billing customer reference carried by an event, by kind: invoice
events carry it on the invoice object, subscription events on the
subscription object. -/
def eventCustomerRef (e : StripeEvent) : String :=
  if e.type == "invoice.payment_succeeded" ||
      e.type == "invoice.payment_failed" then e.invoice.customer
  else e.subscription.customer

/-- The six event kinds resolved through the billing customer reference. -/
def customerRefEventKinds : List String :=
  ["customer.subscription.created", "customer.subscription.updated",
   "customer.subscription.deleted", "invoice.payment_succeeded",
   "invoice.payment_failed", "customer.subscription.trial_will_end"]

/-- All event kinds recognized by the switch of the route. -/
def handledEventKinds : List String :=
  customerRefEventKinds ++ ["customer.created"]

/-! ## Entitlement read paths. -/

/-- ORDER BY created_at DESC LIMIT 1 over a row list: the row with the
greatest created_at, keeping the earlier row on ties. -/
def pickLatest (rows : List Subscription) : Option Subscription :=
  rows.foldl
    (fun acc s =>
      match acc with
      | none => some s
      | some b => if s.created_at > b.created_at then some s else some b)
    none

/-- SELECT ... WHERE user_id = $1 ORDER BY created_at DESC LIMIT 1. -/
def latestSubscriptionRow (rows : List Subscription) (uid : Nat) :
    Option Subscription :=
  pickLatest (rows.filter fun s => s.user_id == uid)

/-- The subscription_plan field of getUserStats (src/database.js
lines 158-185): plan_type of the most recently created subscriptions row of
the user, regardless of its status, defaulting to free. -/
def getUserStats_subscription_plan (db : DB) (uid : Nat) : String :=
  ((latestSubscriptionRow db.subscriptions uid).map (·.plan_type)).getD "free"

/-- The subscription_status field of getUserStats (src/database.js
line 179). -/
def getUserStats_subscription_status (db : DB) (uid : Nat) : String :=
  ((latestSubscriptionRow db.subscriptions uid).map (·.status)).getD "inactive"

/-- The plan_type read by GET /api/dashboard/overview (src/routes/auth.js
dashboard section, LEFT JOIN subscriptions s ON u.id = s.user_id AND
s.status = active, COALESCE(s.plan_type, free), first joined row): the
plan_type of the first subscriptions row of the user whose status is exactly
active, defaulting to free. -/
def overviewPlanType (db : DB) (uid : Nat) : String :=
  ((db.subscriptions.find? fun s => s.user_id == uid && s.status == "active"
    ).map (·.plan_type)).getD "free"

/-- Modelled from the spec: the statuses the spec calls active-like, taken
from the status vocabulary the source treats as current
(GET /api/subscriptions/current uses IN (active, trialing, past_due)). -/
def activeLikeStatus (s : String) : Bool :=
  s == "active" || s == "trialing" || s == "past_due"

/-- Modelled from the spec (section 4.3): currentPlan(userId) is the plan
type of the most-recently-created Subscription row with an active-like
status for that user, defaulting to free if none exists.  This is the
specification-side definition that claim C8 compares against the read paths
of the code. -/
def currentPlanSpec (db : DB) (uid : Nat) : String :=
  (((db.subscriptions.filter fun s => activeLikeStatus s.status).foldl
      (fun acc s =>
        if s.user_id == uid then
          match acc with
          | none => some s
          | some b => if s.created_at > b.created_at then some s else some b
        else acc)
      none).map (·.plan_type)).getD "free"

/-! ## State-mutating REST operations (for the write-path invariant C9).
Each operation is embedded from its route handler; responses are discarded
and only the effect on the store is retained.  External collaborator outputs
(bcrypt hashes, JWTs, Stripe API responses) are explicit arguments. -/

/-- isValidEmail (src/routes/auth.js lines 17-20): the regex accepts
local@domain where local and domain are nonempty, contain no whitespace and
no @, and domain decomposes as A.B with A and B nonempty. -/
def isValidEmail (email : String) : Bool :=
  match email.splitOn "@" with
  | [l, domain] =>
    let noWs := fun (s : String) => s.toList.all fun c => !c.isWhitespace
    let parts := domain.splitOn "."
    !l.isEmpty && noWs l && noWs domain &&
      decide (parts.length ≥ 2) && !(parts.headD "").isEmpty &&
      !(parts.getLastD "").isEmpty
  | _ => false

/-- The PLANS configuration keys (src/unnamed/part_001 lines 989-1015). -/
def PLANS_keys : List String := ["pro", "business"]

/-- POST /api/auth/register (src/routes/auth.js lines 23-101): validations,
duplicate-email check, user INSERT with subscription_status free, session
INSERT with a 30 day expiry.  `password` is the raw password (validated for
length), `passwordHash` the bcrypt output, `token` the generated JWT. -/
def registerOp (email password passwordHash nm : String)
    (company : Option String) (token : String) (now : Int) (db : DB) : DB :=
  if email.isEmpty || password.isEmpty || nm.isEmpty then db
  else if !isValidEmail email then db
  else if password.length < 6 then db
  else if db.users.any (fun u => u.email == email.toLower) then db
  else
    let uid := db.userSeq
    { db with
        users := db.users ++
          [⟨uid, email.toLower, passwordHash, nm, company, "free", none⟩],
        sessions := db.sessions ++ [⟨uid, token, now + 2592000000⟩],
        userSeq := db.userSeq + 1 }

/-- POST /api/auth/login (src/routes/auth.js lines 104-166): find the user
by email, check the password with bcrypt, and insert a fresh session. -/
def loginOp (bcompare : String → String → Bool) (email password token : String)
    (now : Int) (db : DB) : DB :=
  if email.isEmpty || password.isEmpty then db
  else
    match db.users.find? (fun u => u.email == email.toLower) with
    | none => db
    | some user =>
      if !bcompare password user.password_hash then db
      else
        { db with sessions := db.sessions ++
            [⟨user.id, token, now + 2592000000⟩] }

/-- POST /api/auth/logout (src/routes/auth.js lines 169-191): delete the
session rows for the supplied token, if any token was supplied. -/
def logoutOp (token? : Option String) (db : DB) : DB :=
  match token? with
  | none => db
  | some token =>
    { db with sessions :=
        deleteWhere (fun s => s.session_token == token) db.sessions }

/-- POST /api/auth/change-password (src/routes/auth.js lines 306-380):
verify the token, check the current password, store the new hash. -/
def changePasswordOp (bcompare : String → String → Bool)
    (verify : String → Option Nat)
    (token currentPassword newPassword newHash : String) (db : DB) : DB :=
  if currentPassword.isEmpty || newPassword.isEmpty then db
  else if newPassword.length < 6 then db
  else
    match verify token with
    | none => db
    | some uid =>
      match db.users.find? (fun u => u.id == uid) with
      | none => db
      | some user =>
        if !bcompare currentPassword user.password_hash then db
        else
          let users1 :=
            updateWhere (fun u => u.id == uid)
              (fun u => { u with password_hash := newHash }) db.users
          { db with users := users1 }

/-- PUT /api/users/profile (src/unnamed/part_001 lines 80-129): validate
name and company lengths, update name and company_name. -/
def updateProfileOp (uid : Nat) (nm : String) (company : Option String)
    (db : DB) : DB :=
  if nm.trim.isEmpty then db
  else if nm.length > 255 then db
  else if (company.map fun c => decide (c.length > 255)).getD false then db
  else
    let newCompany :=
      (company.map String.trim).bind fun c => if c.isEmpty then none else some c
    let users1 :=
      updateWhere (fun u => u.id == uid)
        (fun u => { u with name := nm.trim, company_name := newCompany })
        db.users
    { db with users := users1 }

/-- PUT /api/users/alerts/:id/read (src/unnamed/part_001 lines 219-242). -/
def markAlertReadOp (uid alertId : Nat) (db : DB) : DB :=
  let alerts1 :=
    updateWhere (fun a => a.id == alertId && a.user_id == uid)
      (fun a => { a with is_read := true }) db.alerts
  { db with alerts := alerts1 }

/-- PUT /api/users/alerts/read-all (src/unnamed/part_001 lines 245-261). -/
def markAllAlertsReadOp (uid : Nat) (db : DB) : DB :=
  let alerts1 :=
    updateWhere (fun a => a.user_id == uid && !a.is_read)
      (fun a => { a with is_read := true }) db.alerts
  { db with alerts := alerts1 }

/-- DELETE /api/users/alerts/:id (src/unnamed/part_001 lines 264-287). -/
def deleteAlertOp (uid alertId : Nat) (db : DB) : DB :=
  { db with alerts :=
      deleteWhere (fun a => a.id == alertId && a.user_id == uid) db.alerts }

/-- DELETE /api/users/account (src/unnamed/part_001 lines 311-345): verify
the password, DELETE FROM users; the schema cascades the deletion to
sessions, subscriptions, alerts, integrations and dashboard_data. -/
def deleteAccountOp (bcompare : String → String → Bool) (uid : Nat)
    (password : String) (db : DB) : DB :=
  if password.isEmpty then db
  else
    match db.users.find? (fun u => u.id == uid) with
    | none => db
    | some user =>
      if !bcompare password user.password_hash then db
      else
        { db with
            users := deleteWhere (fun u => u.id == uid) db.users,
            sessions := deleteWhere (fun s => s.user_id == uid) db.sessions,
            subscriptions :=
              deleteWhere (fun s => s.user_id == uid) db.subscriptions,
            alerts := deleteWhere (fun a => a.user_id == uid) db.alerts,
            integrations :=
              deleteWhere (fun i => i.user_id == uid) db.integrations,
            dashboard_data :=
              deleteWhere (fun d => d.user_id == uid) db.dashboard_data }

/-- POST /api/integrations/stripe (src/unnamed/part_001 lines 458-519):
requires a bound stripe customer; reactivates the existing stripe
integration row, or inserts one. -/
def setupStripeIntegrationOp (uid : Nat) (db : DB) : DB :=
  match db.users.find? (fun u => u.id == uid) with
  | none => db
  | some user =>
    match user.stripe_customer_id with
    | none => db
    | some _ =>
      match db.integrations.find?
          (fun i => i.user_id == uid && i.integration_type == "stripe") with
      | some existing =>
        let integs1 :=
          updateWhere (fun i => i.id == existing.id)
            (fun i => { i with is_active := true }) db.integrations
        { db with integrations := integs1 }
      | none =>
        { db with
            integrations := db.integrations ++
              [⟨db.integSeq, uid, "stripe", "Stripe Payments", true⟩],
            integSeq := db.integSeq + 1 }

/-- POST /api/integrations/google-analytics and /gmail (src/unnamed/part_001
lines 522-617): upsert on (user_id, integration_type). `itype` is
google_analytics or gmail, `iname` the computed integration name. -/
def setupOAuthIntegrationOp (uid : Nat) (itype iname : String)
    (db : DB) : DB :=
  if db.integrations.any
      (fun i => i.user_id == uid && i.integration_type == itype) then
    let integs1 :=
      updateWhere (fun i => i.user_id == uid && i.integration_type == itype)
        (fun i => { i with integration_name := iname, is_active := true })
        db.integrations
    { db with integrations := integs1 }
  else
    { db with
        integrations := db.integrations ++
          [⟨db.integSeq, uid, itype, iname, true⟩],
        integSeq := db.integSeq + 1 }

/-- PUT /api/integrations/:id (src/unnamed/part_001 lines 620-683): update
the supplied fields of an integration owned by the user. -/
def updateIntegrationOp (uid integId : Nat) (iname : Option String)
    (active : Option Bool) (db : DB) : DB :=
  match db.integrations.find?
      (fun i => i.id == integId && i.user_id == uid) with
  | none => db
  | some _ =>
    if iname.isNone && active.isNone then db
    else
      let integs1 :=
        updateWhere (fun i => i.id == integId && i.user_id == uid)
          (fun i => { i with
            integration_name := iname.getD i.integration_name,
            is_active := active.getD i.is_active })
          db.integrations
      { db with integrations := integs1 }

/-- DELETE /api/integrations/:id (src/unnamed/part_001 lines 686-719):
delete the row owned by the user and its dashboard_data rows. -/
def deleteIntegrationOp (uid integId : Nat) (db : DB) : DB :=
  if db.integrations.any (fun i => i.id == integId && i.user_id == uid) then
    { db with
        integrations :=
          deleteWhere (fun i => i.id == integId && i.user_id == uid)
            db.integrations,
        dashboard_data :=
          deleteWhere (fun d => d.integration_id == integId)
            db.dashboard_data }
  else db

/-- POST /api/integrations/:id/sync (src/unnamed/part_001 lines 803-873):
if the integration exists, is owned and active, insert one dashboard_data
row for it. -/
def syncIntegrationOp (uid integId : Nat) (db : DB) : DB :=
  match db.integrations.find?
      (fun i => i.id == integId && i.user_id == uid && i.is_active) with
  | none => db
  | some integration =>
    { db with dashboard_data := db.dashboard_data ++
        [⟨uid, integId, integration.integration_type ++ "_sync"⟩] }

/-- POST /api/dashboard/sync (src/routes/auth.js dashboard section): insert
one dashboard_data row per active integration of the user. -/
def dashboardSyncOp (uid : Nat) (db : DB) : DB :=
  let rows := (db.integrations.filter
      fun i => i.user_id == uid && i.is_active).map
    fun i => (⟨uid, i.id, i.integration_type ++ "_sync"⟩ : DashboardData)
  { db with dashboard_data := db.dashboard_data ++ rows }

/-- POST /api/subscriptions/create (src/unnamed/part_001 lines 1100-1222):
validate the plan, bind a Stripe customer id to the user when absent,
INSERT the subscriptions row from the Stripe response, and overwrite
users.subscription_status with the Stripe subscription status.
`newCustomerId` and `stripeSub` are the Stripe API responses. -/
def subscriptionCreateOp (uid : Nat) (plan_type : String)
    (newCustomerId : String) (stripeSub : StripeSubscription) (db : DB) : DB :=
  if !PLANS_keys.contains plan_type then db
  else
    match db.users.find? (fun u => u.id == uid) with
    | none => db
    | some user =>
      let db1 : DB :=
        match user.stripe_customer_id with
        | some _ => db
        | none =>
          let users1 :=
            updateWhere (fun u => u.id == uid)
              (fun u => { u with stripe_customer_id := some newCustomerId })
              db.users
          { db with users := users1 }
      let db2 : DB :=
        { db1 with
            subscriptions := db1.subscriptions ++
              [⟨uid, stripeSub.id, stripeSub.status, plan_type,
                stripeSub.current_period_start, stripeSub.current_period_end,
                stripeSub.cancel_at_period_end, db1.subSeq⟩],
            subSeq := db1.subSeq + 1 }
      let users2 :=
        updateWhere (fun u => u.id == uid)
          (fun u => { u with subscription_status := stripeSub.status })
          db2.users
      { db2 with users := users2 }

/-- DELETE /api/subscriptions/cancel (src/unnamed/part_001 lines 1293-1357):
find the active or trialing subscription of the user, write back the status
and cancel flag from the Stripe response, and on an immediate cancellation
set the user to free. -/
def subscriptionCancelOp (uid : Nat) (immediate : Bool)
    (stripeSub : StripeSubscription) (db : DB) : DB :=
  match db.subscriptions.find?
      (fun s => s.user_id == uid &&
        (s.status == "active" || s.status == "trialing")) with
  | none => db
  | some row =>
    let subs1 :=
      updateWhere
        (fun s => s.stripe_subscription_id == row.stripe_subscription_id)
        (fun s => { s with
          status := stripeSub.status,
          cancel_at_period_end := stripeSub.cancel_at_period_end })
        db.subscriptions
    let db1 := { db with subscriptions := subs1 }
    if immediate then
      let users1 :=
        updateWhere (fun u => u.id == uid)
          (fun u => { u with subscription_status := "free" }) db1.users
      { db1 with users := users1 }
    else db1

/-- POST /api/subscriptions/reactivate (src/unnamed/part_001
lines 1360-1405): clear the cancel flag of the pending-cancellation row. -/
def subscriptionReactivateOp (uid : Nat) (db : DB) : DB :=
  match db.subscriptions.find?
      (fun s => s.user_id == uid && s.cancel_at_period_end) with
  | none => db
  | some row =>
    let subs1 :=
      updateWhere
        (fun s => s.stripe_subscription_id == row.stripe_subscription_id)
        (fun s => { s with cancel_at_period_end := false })
        db.subscriptions
    { db with subscriptions := subs1 }

/-- The modelled state-mutating operations of the system.  The seven
webhook* constructors are the Billing Event Reconciler handlers; everything
else is a REST operation or maintenance task. -/
inductive Op where
  | register (email password passwordHash nm : String)
      (company : Option String) (token : String) (now : Int)
  | login (email password token : String) (now : Int)
  | logout (token? : Option String)
  | authAccess (now : Int) (token? : Option String)
  | changePassword (token currentPassword newPassword newHash : String)
  | updateProfile (uid : Nat) (nm : String) (company : Option String)
  | markAlertRead (uid alertId : Nat)
  | markAllAlertsRead (uid : Nat)
  | deleteAlert (uid alertId : Nat)
  | deleteAccount (uid : Nat) (password : String)
  | setupStripeIntegration (uid : Nat)
  | setupOAuthIntegration (uid : Nat) (itype iname : String)
  | updateIntegration (uid integId : Nat) (iname : Option String)
      (active : Option Bool)
  | deleteIntegration (uid integId : Nat)
  | syncIntegration (uid integId : Nat)
  | dashboardSync (uid : Nat)
  | subscriptionCreate (uid : Nat) (plan_type newCustomerId : String)
      (stripeSub : StripeSubscription)
  | subscriptionCancel (uid : Nat) (immediate : Bool)
      (stripeSub : StripeSubscription)
  | subscriptionReactivate (uid : Nat)
  | cleanupSessions (now : Int)
  | webhookSubscriptionCreated (sub : StripeSubscription)
  | webhookSubscriptionUpdated (sub : StripeSubscription)
  | webhookSubscriptionDeleted (sub : StripeSubscription)
  | webhookPaymentSucceeded (invoice : StripeInvoice)
  | webhookPaymentFailed (invoice : StripeInvoice)
  | webhookTrialWillEnd (sub : StripeSubscription)
  | webhookCustomerCreated (customer : StripeCustomer)

/-- Effect of an operation on the store.  `bcompare` is the bcrypt
credential verifier, `verify` the JWT verifier. -/
def applyOp (bcompare : String → String → Bool)
    (verify : String → Option Nat) (op : Op) (db : DB) : DB :=
  match op with
  | .register email password passwordHash nm company token now =>
    registerOp email password passwordHash nm company token now db
  | .login email password token now => loginOp bcompare email password token now db
  | .logout token? => logoutOp token? db
  | .authAccess now token? => (requireAuth verify now token? db).2
  | .changePassword token currentPassword newPassword newHash =>
    changePasswordOp bcompare verify token currentPassword newPassword newHash db
  | .updateProfile uid nm company => updateProfileOp uid nm company db
  | .markAlertRead uid alertId => markAlertReadOp uid alertId db
  | .markAllAlertsRead uid => markAllAlertsReadOp uid db
  | .deleteAlert uid alertId => deleteAlertOp uid alertId db
  | .deleteAccount uid password => deleteAccountOp bcompare uid password db
  | .setupStripeIntegration uid => setupStripeIntegrationOp uid db
  | .setupOAuthIntegration uid itype iname =>
    setupOAuthIntegrationOp uid itype iname db
  | .updateIntegration uid integId iname active =>
    updateIntegrationOp uid integId iname active db
  | .deleteIntegration uid integId => deleteIntegrationOp uid integId db
  | .syncIntegration uid integId => syncIntegrationOp uid integId db
  | .dashboardSync uid => dashboardSyncOp uid db
  | .subscriptionCreate uid plan_type newCustomerId stripeSub =>
    subscriptionCreateOp uid plan_type newCustomerId stripeSub db
  | .subscriptionCancel uid immediate stripeSub =>
    subscriptionCancelOp uid immediate stripeSub db
  | .subscriptionReactivate uid => subscriptionReactivateOp uid db
  | .cleanupSessions now => cleanupExpiredSessions now db
  | .webhookSubscriptionCreated sub => handleSubscriptionCreated sub db
  | .webhookSubscriptionUpdated sub => handleSubscriptionUpdated sub db
  | .webhookSubscriptionDeleted sub => handleSubscriptionDeleted sub db
  | .webhookPaymentSucceeded invoice => handlePaymentSucceeded invoice db
  | .webhookPaymentFailed invoice => handlePaymentFailed invoice db
  | .webhookTrialWillEnd sub => handleTrialWillEnd sub db
  | .webhookCustomerCreated customer => handleCustomerCreated customer db

/-- The Billing Event Reconciler handlers among the operations. -/
def isWebhookHandlerOp : Op → Bool
  | .webhookSubscriptionCreated _ => true
  | .webhookSubscriptionUpdated _ => true
  | .webhookSubscriptionDeleted _ => true
  | .webhookPaymentSucceeded _ => true
  | .webhookPaymentFailed _ => true
  | .webhookTrialWillEnd _ => true
  | .webhookCustomerCreated _ => true
  | _ => false

/-- The operations that write users.subscription_status: the three
subscription webhook handlers, POST /api/subscriptions/create, and the
immediate branch of DELETE /api/subscriptions/cancel. -/
def writesSubscriptionStatus : Op → Bool
  | .webhookSubscriptionCreated _ => true
  | .webhookSubscriptionUpdated _ => true
  | .webhookSubscriptionDeleted _ => true
  | .subscriptionCreate _ _ _ _ => true
  | .subscriptionCancel _ immediate _ => immediate
  | _ => false

/-! ## General lemmas about the SQL-style list operations. -/

theorem find?_map_of_pred (f : α → α) (p : α → Bool)
    (h : ∀ x, p (f x) = p x) :
    ∀ l : List α, (l.map f).find? p = (l.find? p).map f := by
  intro l
  induction l with
  | nil => rfl
  | cons x xs ih =>
    by_cases hx : p x
    · simp [List.find?_cons, h x, hx]
    · simp only [List.map_cons, List.find?_cons, h x,
        Bool.not_eq_true] at *
      simp [hx, ih]

theorem find?_updateWhere (q : α → Bool) (f : α → α) (p : α → Bool)
    (h : ∀ x, p (f x) = p x) (l : List α) :
    (updateWhere q f l).find? p =
      (l.find? p).map fun x => if q x then f x else x := by
  unfold updateWhere
  apply find?_map_of_pred
  intro x
  by_cases hq : q x <;> simp [hq, h x]

theorem updateWhere_eq_self (q : α → Bool) (f : α → α) (l : List α)
    (h : ∀ x ∈ l, q x = true → f x = x) : updateWhere q f l = l := by
  unfold updateWhere
  induction l with
  | nil => rfl
  | cons x xs ih =>
    simp only [List.map_cons]
    have h1 : (if q x = true then f x else x) = x := by
      by_cases hq : q x
      · simp [hq, h x (by simp) hq]
      · simp [hq]
    rw [h1, ih fun y hy => h y (by simp [hy])]

theorem updateWhere_of_not_mem (q : α → Bool) (f : α → α) (l : List α)
    (h : ∀ x ∈ l, q x = false) : updateWhere q f l = l :=
  updateWhere_eq_self q f l fun x hx hq => by simp [h x hx] at hq

theorem find?_filter_of_imp (p r : α → Bool)
    (h : ∀ x, p x = true → r x = true) (l : List α) :
    (l.filter r).find? p = l.find? p := by
  induction l with
  | nil => rfl
  | cons x xs ih =>
    by_cases hp : p x
    · simp [List.filter_cons, h x hp, List.find?_cons, hp]
    · by_cases hr : r x <;>
        simp_all [List.filter_cons, List.find?_cons, hr, hp]

theorem find?_filter_none (p r : α → Bool)
    (h : ∀ x, p x = true → r x = false) (l : List α) :
    (l.filter r).find? p = none := by
  rw [List.find?_eq_none]
  intro x hx hp
  rw [List.mem_filter] at hx
  have := h x hp
  rw [hx.2] at this
  cases this

theorem deleteWhere_length_add_countP (q : α → Bool) (l : List α) :
    (deleteWhere q l).length + l.countP q = l.length := by
  unfold deleteWhere
  induction l with
  | nil => rfl
  | cons x xs ih =>
    by_cases hq : q x <;>
      simp [List.filter_cons, List.countP_cons, hq] <;> omega

theorem eq_of_pairwise_key {κ : Type _} (key : α → κ) (l : List α)
    (h : l.Pairwise fun a b => key a ≠ key b) :
    ∀ a ∈ l, ∀ b ∈ l, key a = key b → a = b := by
  induction l with
  | nil => intro a ha; cases ha
  | cons x xs ih =>
    rw [List.pairwise_cons] at h
    intro a ha b hb hk
    rcases List.mem_cons.mp ha with ha1 | ha2
    · rcases List.mem_cons.mp hb with hb1 | hb2
      · rw [ha1, hb1]
      · rw [ha1] at hk ⊢
        exact absurd hk (h.1 b hb2)
    · rcases List.mem_cons.mp hb with hb1 | hb2
      · rw [hb1] at hk ⊢
        exact absurd hk.symm (h.1 a ha2)
      · exact ih h.2 a ha2 b hb2 hk

theorem filter_key_singleton {κ : Type _} (key : α → κ) [DecidableEq κ]
    (l : List α) (t : κ) (s : α)
    (h : l.Pairwise fun a b => key a ≠ key b)
    (hs : s ∈ l) (ht : key s = t) :
    l.filter (fun x => key x == t) = [s] := by
  induction l with
  | nil => cases hs
  | cons x xs ih =>
    rw [List.pairwise_cons] at h
    rcases List.mem_cons.mp hs with rfl | hs
    · have hxs : xs.filter (fun x => key x == t) = [] := by
        rw [List.filter_eq_nil_iff]
        intro y hy
        have := h.1 y hy
        simp only [beq_iff_eq]
        rw [← ht]
        exact fun hc => this hc.symm
      simp [List.filter_cons, ht, hxs]
    · have hx : (key x == t) = false := by
        have := h.1 s hs
        rw [ht] at this
        simp [this]
      simp [List.filter_cons, hx, ih h.2 hs]

/-! ## Claim C1: success condition of the Session Guard. -/

deriving instance DecidableEq for Except

/-- C1 (counterexample).  The claim states that authentication succeeds iff
the token verifies, a session row keyed by the token string exists, and
now < expires_at.  Both directions fail on the code: at now = expires_at the
guard accepts (the code rejects only when now > expires_at), and a session
row for the token whose owning user differs from the embedded user id makes
authentication fail even though the token verifies, the row exists and it is
unexpired (the lookup is keyed by token AND user id jointly). -/
theorem C1_counterexample :
    ((requireAuth (fun t => if t == "tok" then some 1 else none) 100
        (some "tok")
        ⟨[], [⟨1, "tok", 100⟩], [], [], [], [], 0, 0, 0, 0⟩).1 = .ok 1 ∧
      ¬ ((100 : Int) < 100)) ∧
    ((fun t => if t == "tok" then some 1 else none) "tok" = some 1 ∧
      (∃ s ∈ [(⟨2, "tok", 100⟩ : Session)],
        s.session_token = "tok" ∧ (0 : Int) < s.expires_at) ∧
      ¬ ((requireAuth (fun t => if t == "tok" then some 1 else none) 0
          (some "tok")
          ⟨[], [⟨2, "tok", 100⟩], [], [], [], [], 0, 0, 0, 0⟩).1 = .ok 1)) := by
  decide

/-- C1 (amended).  With the session_token UNIQUE constraint, authentication
with a supplied token succeeds returning uid iff the token verifies with
embedded user id uid, a session row exists whose token is the literal token
string and whose owning user id equals uid, and now ≤ expires_at; a request
arriving exactly at now = expires_at is accepted. -/
theorem C1_requireAuth_ok_iff (verify : String → Option Nat) (now : Int)
    (token : String) (db : DB) (uid : Nat) (hU : sessionTokensUnique db) :
    (requireAuth verify now (some token) db).1 = .ok uid ↔
      (verify token = some uid ∧ ∃ s ∈ db.sessions,
        s.session_token = token ∧ s.user_id = uid ∧ now ≤ s.expires_at) := by
  cases hv : verify token with
  | none =>
    simp only [requireAuth, hv]
    constructor
    · intro h
      exact Except.noConfusion h
    · rintro ⟨hvu, -⟩; cases hvu
  | some v =>
    cases hf : db.sessions.find?
        (fun s => s.session_token == token && s.user_id == v) with
    | none =>
      simp only [requireAuth, hv, hf]
      rw [List.find?_eq_none] at hf
      constructor
      · intro h
        exact Except.noConfusion h
      · rintro ⟨hvu, s, hs, htok, huid, -⟩
        have hvu2 : v = uid := by injection hvu
        exact absurd (by simp [htok, huid, hvu2]) (hf s hs)
    | some s =>
      have hps := List.find?_some hf
      have hmem := List.mem_of_find?_eq_some hf
      rw [Bool.and_eq_true, beq_iff_eq, beq_iff_eq] at hps
      by_cases hex : now > s.expires_at
      · simp only [requireAuth, hv, hf, if_pos hex]
        constructor
        · intro h
          exact Except.noConfusion h
        · rintro ⟨hvu, s2, hs2, htok2, huid2, hexp2⟩
          have hss : s2 = s :=
            eq_of_pairwise_key Session.session_token db.sessions hU
              s2 hs2 s hmem (htok2.trans hps.1.symm)
          rw [hss] at hexp2
          exact absurd hexp2 (not_le.mpr hex)
      · simp only [requireAuth, hv, hf, if_neg hex]
        constructor
        · intro h
          have h2 : (Except.ok v : Except AuthError Nat) = .ok uid := h
          have hvu : v = uid := by injection h2
          exact ⟨congrArg some hvu, s, hmem, hps.1,
            hps.2.trans hvu, le_of_not_lt hex⟩
        · rintro ⟨hvu, -⟩
          have hvu2 : v = uid := by injection hvu
          show (Except.ok v : Except AuthError Nat) = .ok uid
          exact congrArg Except.ok hvu2

/-- C1 witness: a concrete token, store and clock at which the amended
success condition holds and the guard accepts. -/
theorem C1_witness :
    sessionTokensUnique ⟨[], [⟨1, "tok", 100⟩], [], [], [], [], 0, 0, 0, 0⟩ ∧
    (requireAuth (fun t => if t == "tok" then some 1 else none) 50
      (some "tok")
      ⟨[], [⟨1, "tok", 100⟩], [], [], [], [], 0, 0, 0, 0⟩).1 = .ok 1 :=
  ⟨by decide,
    (C1_requireAuth_ok_iff (fun t => if t == "tok" then some 1 else none)
      50 "tok" ⟨[], [⟨1, "tok", 100⟩], [], [], [], [], 0, 0, 0, 0⟩ 1
      (by decide)).mpr (by decide)⟩

/-! ## Claim C5: expired-session access deletes exactly that row. -/

/-- C5 (confirmed).  Accessing the guard with a structurally valid token
whose session row (keyed by the token and matching the embedded user id)
exists but has expires_at in the past fails with ExpiredSession, leaves no
row for that token behind (an immediate lookup returns none), deletes
exactly one row (every row with a different token is retained and the
session count drops by one), and mutates nothing else. -/
theorem C5_expired_access_cleanup (verify : String → Option Nat) (now : Int)
    (token : String) (db : DB) (uid : Nat) (s : Session)
    (hU : sessionTokensUnique db) (hv : verify token = some uid)
    (hs : s ∈ db.sessions) (ht : s.session_token = token)
    (hid : s.user_id = uid) (he : s.expires_at < now) :
    (requireAuth verify now (some token) db).1 = .error .ExpiredSession ∧
    ((requireAuth verify now (some token) db).2.sessions.find?
      (fun x => x.session_token == token)) = none ∧
    (requireAuth verify now (some token) db).2.sessions.length + 1 =
      db.sessions.length ∧
    (∀ x ∈ db.sessions, x.session_token ≠ token →
      x ∈ (requireAuth verify now (some token) db).2.sessions) ∧
    (requireAuth verify now (some token) db).2.users = db.users ∧
    (requireAuth verify now (some token) db).2.subscriptions =
      db.subscriptions ∧
    (requireAuth verify now (some token) db).2.alerts = db.alerts ∧
    (requireAuth verify now (some token) db).2.integrations =
      db.integrations ∧
    (requireAuth verify now (some token) db).2.dashboard_data =
      db.dashboard_data := by
  have hf : db.sessions.find?
      (fun x => x.session_token == token && x.user_id == uid) = some s := by
    cases hf0 : db.sessions.find?
        (fun x => x.session_token == token && x.user_id == uid) with
    | none =>
      rw [List.find?_eq_none] at hf0
      exact absurd (by simp [ht, hid]) (hf0 s hs)
    | some s2 =>
      have hp2 := List.find?_some hf0
      have hm2 := List.mem_of_find?_eq_some hf0
      rw [Bool.and_eq_true, beq_iff_eq, beq_iff_eq] at hp2
      have : s2 = s :=
        eq_of_pairwise_key Session.session_token db.sessions hU
          s2 hm2 s hs (hp2.1.trans ht.symm)
      rw [this]
  have hgt : now > s.expires_at := he
  simp only [requireAuth, hv, hf, if_pos hgt]
  refine ⟨by trivial, ?_, ?_, ?_, by trivial, by trivial, by trivial,
    by trivial, by trivial⟩
  · exact find?_filter_none _ _
      (fun x hx => by simp only [beq_iff_eq] at hx; simp [hx]) db.sessions
  · have h1 := deleteWhere_length_add_countP
      (fun x => x.session_token == token) db.sessions
    have h2 : db.sessions.countP (fun x => x.session_token == token) = 1 := by
      rw [List.countP_eq_length_filter,
        filter_key_singleton Session.session_token db.sessions token s hU hs ht]
      rfl
    omega
  · intro x hx hne
    unfold deleteWhere
    rw [List.mem_filter]
    exact ⟨hx, by simp [hne]⟩

/-- C5 witness: a concrete expired session access exercising the theorem. -/
theorem C5_witness :
    (requireAuth (fun t => if t == "tok" then some 1 else none) 200
      (some "tok")
      ⟨[], [⟨1, "tok", 100⟩, ⟨2, "other", 500⟩], [], [], [], [],
        0, 0, 0, 0⟩).1 = .error .ExpiredSession ∧
    (requireAuth (fun t => if t == "tok" then some 1 else none) 200
      (some "tok")
      ⟨[], [⟨1, "tok", 100⟩, ⟨2, "other", 500⟩], [], [], [], [],
        0, 0, 0, 0⟩).2.sessions.length + 1 = 2 :=
  have h := C5_expired_access_cleanup
    (fun t => if t == "tok" then some 1 else none) 200 "tok"
    ⟨[], [⟨1, "tok", 100⟩, ⟨2, "other", 500⟩], [], [], [], [], 0, 0, 0, 0⟩
    1 ⟨1, "tok", 100⟩ (by decide) (by decide) (by decide) (by decide)
    (by decide) (by decide)
  ⟨h.1, h.2.2.1⟩

/-! ## Claim C6: token/session user mismatch error class. -/

/-- C6 (counterexample).  The claim states that a structurally valid token
embedding user id 1, whose stored session row for that token string is owned
by user 2, fails with InvalidToken.  On the code the session lookup is keyed
by token AND user id jointly, so the mismatch falls into the absent-session
branch and the guard answers UnknownSession, not InvalidToken. -/
theorem C6_counterexample :
    (fun t => if t == "tok" then some 1 else none) "tok" = some 1 ∧
    (∃ s ∈ [(⟨2, "tok", 100⟩ : Session)],
      s.session_token = "tok" ∧ s.user_id ≠ 1) ∧
    (requireAuth (fun t => if t == "tok" then some 1 else none) 0
      (some "tok")
      ⟨[], [⟨2, "tok", 100⟩], [], [], [], [], 0, 0, 0, 0⟩).1 =
        .error .UnknownSession ∧
    (requireAuth (fun t => if t == "tok" then some 1 else none) 0
      (some "tok")
      ⟨[], [⟨2, "tok", 100⟩], [], [], [], [], 0, 0, 0, 0⟩).1 ≠
        .error .InvalidToken := by
  decide

/-- C6 (amended).  When the verified token embeds uid but no session row
carries both that token string and that owning user id (in particular when
the row for the token is owned by a different user), the guard fails with
UnknownSession. -/
theorem C6_mismatch_unknown_session (verify : String → Option Nat)
    (now : Int) (token : String) (db : DB) (uid : Nat)
    (hv : verify token = some uid)
    (hm : ∀ s ∈ db.sessions, s.session_token = token → s.user_id ≠ uid) :
    (requireAuth verify now (some token) db).1 = .error .UnknownSession := by
  have hf : db.sessions.find?
      (fun x => x.session_token == token && x.user_id == uid) = none := by
    rw [List.find?_eq_none]
    intro x hx hp
    rw [Bool.and_eq_true, beq_iff_eq, beq_iff_eq] at hp
    exact hm x hx hp.1 hp.2
  simp only [requireAuth, hv, hf]

/-- C6 witness: the amended behavior at the concrete mismatch input. -/
theorem C6_witness :
    (requireAuth (fun t => if t == "tok" then some 1 else none) 0
      (some "tok")
      ⟨[], [⟨2, "tok", 100⟩], [], [], [], [], 0, 0, 0, 0⟩).1 =
        .error .UnknownSession :=
  C6_mismatch_unknown_session (fun t => if t == "tok" then some 1 else none)
    0 "tok" ⟨[], [⟨2, "tok", 100⟩], [], [], [], [], 0, 0, 0, 0⟩ 1
    (by decide) (by decide)

/-! ## Further lemmas about updateWhere, used by the reconciler claims. -/

theorem countP_updateWhere (q : α → Bool) (f : α → α) (p : α → Bool)
    (h : ∀ x, p (f x) = p x) (l : List α) :
    (updateWhere q f l).countP p = l.countP p := by
  unfold updateWhere
  induction l with
  | nil => rfl
  | cons x xs ih =>
    have hx : p (if q x then f x else x) = p x := by
      by_cases hq : q x <;> simp [hq, h x]
    simp only [List.map_cons, List.countP_cons, ih, hx]

theorem updateWhere_idem (q : α → Bool) (f : α → α)
    (hq : ∀ x, q (f x) = q x) (hf : ∀ x, f (f x) = f x) (l : List α) :
    updateWhere q f (updateWhere q f l) = updateWhere q f l := by
  unfold updateWhere
  rw [List.map_map]
  apply List.map_congr_left
  intro x _
  by_cases hqx : q x
  · simp [hqx, hq x, hf x]
  · simp [hqx]

/-- Overwriting subscription_status for every users row with a given id
makes the id lookup read back the written value, as long as some row with
that id exists. -/
theorem getStatus_after_set (l : List User) (uid : Nat) (v : String)
    (hex : ∃ x ∈ l, x.id = uid) :
    ((updateWhere (fun u => u.id == uid)
        (fun u => { u with subscription_status := v }) l).find?
      (fun u => u.id == uid)).map (·.subscription_status) = some v := by
  rw [find?_updateWhere (fun u => u.id == uid)
    (fun u => { u with subscription_status := v })
    (fun u => u.id == uid) (fun x => rfl) l]
  obtain ⟨x, hx, hxid⟩ := hex
  have hsome : (l.find? fun u => u.id == uid).isSome := by
    rw [List.find?_isSome]
    exact ⟨x, hx, by simp [hxid]⟩
  obtain ⟨w, hw⟩ := Option.isSome_iff_exists.mp hsome
  have hpw : (w.id == uid) = true :=
    List.find?_some (p := fun (u : User) => u.id == uid) hw
  rw [beq_iff_eq] at hpw
  simp [hw, hpw]

/-- Updating fields other than stripe_customer_id leaves the
getUserByStripeCustomer lookup pointing at the image of the found user. -/
theorem getUserByStripeCustomer_updateWhere (c : String)
    (q : User → Bool) (f : User → User)
    (hf : ∀ x, (f x).stripe_customer_id = x.stripe_customer_id)
    (l : List User) :
    (updateWhere q f l).find?
        (fun u => u.stripe_customer_id == some c) =
      ((l.find? fun u => u.stripe_customer_id == some c).map
        fun x => if q x then f x else x) := by
  apply find?_updateWhere
  intro x
  by_cases hq : q x <;> simp [hq, hf x]

/-- Sample payloads and an empty store, used by concrete witnesses. -/
def sampleSub : StripeSubscription :=
  ⟨"sub_1", "cus_1", "trialing", some "pro", 0, 1000, false, 500⟩

def sampleInv : StripeInvoice := ⟨"in_1", "cus_1", 995, 995, "eur"⟩

def sampleCust : StripeCustomer := ⟨"cus_1", some "a@x.com"⟩

def emptyDB : DB := ⟨[], [], [], [], [], [], 0, 0, 0, 0⟩

/-- Shared lemma: a verified event of a customer-reference kind whose
billing customer reference resolves to no user is acknowledged with 200 and
leaves the store untouched. -/
theorem postStripeWebhook_unresolvable (cfg : Config) (req : WebhookRequest)
    (db : DB) (hsec : cfg.webhookSecretConfigured = true)
    (hsig : req.sigValid = true)
    (hkey : cfg.stripeSecretKeyConfigured = true)
    (hkind : req.event.type ∈ customerRefEventKinds)
    (hnone : getUserByStripeCustomer db (eventCustomerRef req.event) = none) :
    postStripeWebhook cfg req db = (200, db) := by
  have hv : verifyStripeWebhook cfg req = .ok req.event := by
    simp [verifyStripeWebhook, hsec, hsig]
  simp only [customerRefEventKinds, List.mem_cons,
    List.not_mem_nil, or_false] at hkind
  unfold getUserByStripeCustomer at hnone
  rcases hkind with h | h | h | h | h | h
  · rw [(by simp [eventCustomerRef, h] :
        eventCustomerRef req.event = req.event.subscription.customer)] at hnone
    simp [postStripeWebhook, hv, hkey, h, handleSubscriptionCreated,
      getUserByStripeCustomer, hnone]
  · rw [(by simp [eventCustomerRef, h] :
        eventCustomerRef req.event = req.event.subscription.customer)] at hnone
    simp [postStripeWebhook, hv, hkey, h, handleSubscriptionUpdated,
      getUserByStripeCustomer, hnone]
  · rw [(by simp [eventCustomerRef, h] :
        eventCustomerRef req.event = req.event.subscription.customer)] at hnone
    simp [postStripeWebhook, hv, hkey, h, handleSubscriptionDeleted,
      getUserByStripeCustomer, hnone]
  · rw [(by simp [eventCustomerRef, h] :
        eventCustomerRef req.event = req.event.invoice.customer)] at hnone
    simp [postStripeWebhook, hv, hkey, h, handlePaymentSucceeded,
      getUserByStripeCustomer, hnone]
  · rw [(by simp [eventCustomerRef, h] :
        eventCustomerRef req.event = req.event.invoice.customer)] at hnone
    simp [postStripeWebhook, hv, hkey, h, handlePaymentFailed,
      getUserByStripeCustomer, hnone]
  · rw [(by simp [eventCustomerRef, h] :
        eventCustomerRef req.event = req.event.subscription.customer)] at hnone
    simp [postStripeWebhook, hv, hkey, h, handleTrialWillEnd,
      getUserByStripeCustomer, hnone]

/-! ## Claim C3: soft miss acknowledged with zero state mutation. -/

/-- C3 (confirmed).  A verified inbound event of any of the six
customer-reference kinds whose billing customer reference matches no user is
answered with the 200 acknowledgment and the store is returned unchanged:
no Subscription row, no User field and no Alert row is written. -/
theorem C3_unresolvable_user_ack (cfg : Config) (req : WebhookRequest)
    (db : DB) (hsec : cfg.webhookSecretConfigured = true)
    (hsig : req.sigValid = true)
    (hkey : cfg.stripeSecretKeyConfigured = true)
    (hkind : req.event.type ∈ customerRefEventKinds)
    (hnone : getUserByStripeCustomer db (eventCustomerRef req.event) = none) :
    postStripeWebhook cfg req db = (200, db) :=
  postStripeWebhook_unresolvable cfg req db hsec hsig hkey hkind hnone

/-- C3 witness: concrete unresolvable SubscriptionCreated delivery. -/
theorem C3_witness :
    postStripeWebhook ⟨true, true⟩
      ⟨true, ⟨"customer.subscription.created", sampleSub, sampleInv,
        sampleCust⟩⟩ emptyDB = (200, emptyDB) :=
  C3_unresolvable_user_ack ⟨true, true⟩
    ⟨true, ⟨"customer.subscription.created", sampleSub, sampleInv,
      sampleCust⟩⟩ emptyDB rfl rfl rfl (by decide) (by decide)

/-! ## Claim C7: route status codes. -/

/-- C7 (counterexample).  The claim states that a configured-secret
verification failure is answered with a server-error status.  The code
answers 400, a client-error status outside the 5xx range (still a
non-success status, so the upstream processor redelivers). -/
theorem C7_counterexample :
    postStripeWebhook ⟨true, true⟩
      ⟨false, ⟨"customer.subscription.created", sampleSub, sampleInv,
        sampleCust⟩⟩ emptyDB = (400, emptyDB) ∧
    ¬ (500 ≤ (postStripeWebhook ⟨true, true⟩
      ⟨false, ⟨"customer.subscription.created", sampleSub, sampleInv,
        sampleCust⟩⟩ emptyDB).1) := by
  decide

/-- C7 (amended).  With a configured verification secret, a signature
failure is answered with the client-error status 400 (a non-2xx answer,
prompting upstream redelivery) and no state transition; a verified event of
an unrecognized kind, and a verified event whose customer reference
resolves to no user, are answered with the 200 acknowledgment and no state
transition. -/
theorem C7_webhook_status (cfg : Config) (req : WebhookRequest) (db : DB) :
    (cfg.webhookSecretConfigured = true → req.sigValid = false →
      postStripeWebhook cfg req db = (400, db)) ∧
    (cfg.webhookSecretConfigured = true → req.sigValid = true →
      cfg.stripeSecretKeyConfigured = true →
      req.event.type ∉ handledEventKinds →
      postStripeWebhook cfg req db = (200, db)) ∧
    (cfg.webhookSecretConfigured = true → req.sigValid = true →
      cfg.stripeSecretKeyConfigured = true →
      req.event.type ∈ customerRefEventKinds →
      getUserByStripeCustomer db (eventCustomerRef req.event) = none →
      postStripeWebhook cfg req db = (200, db)) := by
  refine ⟨?_, ?_, ?_⟩
  · intro hsec hsig
    have hv : verifyStripeWebhook cfg req = .failed := by
      simp [verifyStripeWebhook, hsec, hsig]
    simp [postStripeWebhook, hv]
  · intro hsec hsig hkey hkind
    have hv : verifyStripeWebhook cfg req = .ok req.event := by
      simp [verifyStripeWebhook, hsec, hsig]
    simp only [handledEventKinds, customerRefEventKinds, List.mem_append,
      List.mem_cons, List.not_mem_nil, or_false, not_or] at hkind
    obtain ⟨⟨h1, h2, h3, h4, h5, h6⟩, h7⟩ := hkind
    simp [postStripeWebhook, hv, hkey, beq_iff_eq, h1, h2, h3, h4, h5, h6, h7]
  · intro hsec hsig hkey hkind hnone
    exact postStripeWebhook_unresolvable cfg req db hsec hsig hkey hkind hnone

/-- C7 witness: the three amended cases exercised at concrete deliveries. -/
theorem C7_witness :
    (postStripeWebhook ⟨true, true⟩
      ⟨false, ⟨"customer.subscription.created", sampleSub, sampleInv,
        sampleCust⟩⟩ emptyDB = (400, emptyDB)) ∧
    (postStripeWebhook ⟨true, true⟩
      ⟨true, ⟨"charge.refunded", sampleSub, sampleInv, sampleCust⟩⟩
      emptyDB = (200, emptyDB)) ∧
    (postStripeWebhook ⟨true, true⟩
      ⟨true, ⟨"invoice.payment_failed", sampleSub, sampleInv, sampleCust⟩⟩
      emptyDB = (200, emptyDB)) :=
  ⟨(C7_webhook_status ⟨true, true⟩
      ⟨false, ⟨"customer.subscription.created", sampleSub, sampleInv,
        sampleCust⟩⟩ emptyDB).1 rfl rfl,
    (C7_webhook_status ⟨true, true⟩
      ⟨true, ⟨"charge.refunded", sampleSub, sampleInv, sampleCust⟩⟩
      emptyDB).2.1 rfl rfl rfl (by decide),
    (C7_webhook_status ⟨true, true⟩
      ⟨true, ⟨"invoice.payment_failed", sampleSub, sampleInv, sampleCust⟩⟩
      emptyDB).2.2 rfl rfl rfl (by decide) (by decide)⟩

/-- A store with one user bound to cus_1 and no subscriptions. -/
def dbOneUser : DB :=
  ⟨[⟨1, "a@x.com", "h", "A", none, "free", some "cus_1"⟩],
    [], [], [], [], [], 2, 0, 0, 0⟩

/-- A store with one user bound to cus_1, an active pro subscription row
sub_1 and an active gmail integration. -/
def dbUserWithSub : DB :=
  ⟨[⟨1, "a@x.com", "h", "A", none, "active", some "cus_1"⟩],
    [],
    [⟨1, "sub_1", "active", "pro", 0, 1000, false, 0⟩],
    [],
    [⟨5, 1, "gmail", "Gmail Business", true⟩],
    [], 2, 1, 0, 6⟩

/-! ## Claim C4: SubscriptionDeleted effects. -/

/-- C4 (confirmed).  When a SubscriptionDeleted event resolves to user u and
a subscription row for its billing reference exists, the handler leaves
every row with that reference in status canceled, sets u to
subscription_status free, deactivates the premium-only integrations
(google_analytics and gmail) of u, and appends exactly one
subscription_canceled alert for u with severity warning. -/
theorem C4_subscription_deleted_effects (sub : StripeSubscription) (db : DB)
    (u : User) (r : Subscription)
    (hu : getUserByStripeCustomer db sub.customer = some u)
    (_hr : r ∈ db.subscriptions)
    (_hrid : r.stripe_subscription_id = sub.id) :
    (∀ x ∈ (handleSubscriptionDeleted sub db).subscriptions,
      x.stripe_subscription_id = sub.id → x.status = "canceled") ∧
    getStatusById (handleSubscriptionDeleted sub db) u.id = some "free" ∧
    (∀ i ∈ (handleSubscriptionDeleted sub db).integrations, i.user_id = u.id →
      (i.integration_type = "google_analytics" ∨
        i.integration_type = "gmail") → i.is_active = false) ∧
    (∃ a : Alert,
      (handleSubscriptionDeleted sub db).alerts = db.alerts ++ [a] ∧
      a.alert_type = "subscription_canceled" ∧ a.severity = "warning" ∧
      a.user_id = u.id) := by
  simp only [handleSubscriptionDeleted, hu, createUserAlert]
  refine ⟨?_, ?_, ?_, ?_⟩
  · intro x hx hxid
    unfold updateWhere at hx
    obtain ⟨y, hy, hxy⟩ := List.mem_map.mp hx
    by_cases hq : (y.stripe_subscription_id == sub.id) = true
    · rw [← hxy]
      simp [hq]
    · rw [← hxy] at hxid
      rw [if_neg hq] at hxid
      simp [hxid] at hq
  · simp only [getStatusById]
    exact getStatus_after_set db.users u.id "free"
      ⟨u, List.mem_of_find?_eq_some hu, rfl⟩
  · intro i hi hiu hit
    unfold updateWhere at hi
    obtain ⟨y, hy, hxy⟩ := List.mem_map.mp hi
    by_cases hq : (y.user_id == u.id &&
        (y.integration_type == "google_analytics" ||
          y.integration_type == "gmail")) = true
    · rw [← hxy]
      simp [hq]
    · rw [← hxy] at hiu hit
      rw [if_neg hq] at hiu hit
      rcases hit with hit | hit <;> simp [hiu, hit] at hq
  · exact ⟨_, rfl, rfl, rfl, rfl⟩

/-- C4 witness: concrete SubscriptionDeleted delivery against a store with
the matching subscription row. -/
theorem C4_witness :
    (∀ x ∈ (handleSubscriptionDeleted sampleSub dbUserWithSub).subscriptions,
      x.stripe_subscription_id = sampleSub.id → x.status = "canceled") ∧
    getStatusById (handleSubscriptionDeleted sampleSub dbUserWithSub) 1 =
      some "free" ∧
    (∀ i ∈ (handleSubscriptionDeleted sampleSub dbUserWithSub).integrations,
      i.user_id = 1 →
      (i.integration_type = "google_analytics" ∨
        i.integration_type = "gmail") → i.is_active = false) ∧
    (∃ a : Alert,
      (handleSubscriptionDeleted sampleSub dbUserWithSub).alerts =
        dbUserWithSub.alerts ++ [a] ∧
      a.alert_type = "subscription_canceled" ∧ a.severity = "warning" ∧
      a.user_id = 1) :=
  C4_subscription_deleted_effects sampleSub dbUserWithSub
    ⟨1, "a@x.com", "h", "A", none, "active", some "cus_1"⟩
    ⟨1, "sub_1", "active", "pro", 0, 1000, false, 0⟩
    (by decide) (by decide) (by decide)

/-! ## Claim C10: SubscriptionUpdated without a matching row. -/

/-- C10 (confirmed).  When a SubscriptionUpdated event resolves to a user
but no subscription row carries its billing reference, the handler leaves
the subscriptions table untouched, still overwrites the user
subscription_status with the event status, and still appends one
subscription_updated alert for the user. -/
theorem C10_update_without_row (sub : StripeSubscription) (db : DB) (u : User)
    (hu : getUserByStripeCustomer db sub.customer = some u)
    (hno : ∀ r ∈ db.subscriptions, r.stripe_subscription_id ≠ sub.id) :
    (handleSubscriptionUpdated sub db).subscriptions = db.subscriptions ∧
    getStatusById (handleSubscriptionUpdated sub db) u.id =
      some sub.status ∧
    (∃ a : Alert,
      (handleSubscriptionUpdated sub db).alerts = db.alerts ++ [a] ∧
      a.alert_type = "subscription_updated" ∧ a.user_id = u.id) := by
  simp only [handleSubscriptionUpdated, hu, createUserAlert]
  refine ⟨?_, ?_, ?_⟩
  · exact updateWhere_of_not_mem _ _ db.subscriptions
      fun x hx => by simp [hno x hx]
  · simp only [getStatusById]
    exact getStatus_after_set db.users u.id sub.status
      ⟨u, List.mem_of_find?_eq_some hu, rfl⟩
  · exact ⟨_, rfl, rfl, rfl⟩

/-- C10 witness: concrete SubscriptionUpdated delivery against a store with
no subscription rows at all. -/
theorem C10_witness :
    (handleSubscriptionUpdated sampleSub dbOneUser).subscriptions =
      dbOneUser.subscriptions ∧
    getStatusById (handleSubscriptionUpdated sampleSub dbOneUser) 1 =
      some sampleSub.status ∧
    (∃ a : Alert,
      (handleSubscriptionUpdated sampleSub dbOneUser).alerts =
        dbOneUser.alerts ++ [a] ∧
      a.alert_type = "subscription_updated" ∧ a.user_id = 1) :=
  C10_update_without_row sampleSub dbOneUser
    ⟨1, "a@x.com", "h", "A", none, "free", some "cus_1"⟩
    (by decide) (by decide)

/-! ## Component characterization of handleSubscriptionCreated and the
idempotence claim C2. -/

/-- The ON CONFLICT DO UPDATE assignment of handleSubscriptionCreated. -/
def subUpdater (sub : StripeSubscription) : Subscription → Subscription :=
  fun r => { r with
    status := sub.status,
    current_period_start := sub.current_period_start,
    current_period_end := sub.current_period_end,
    cancel_at_period_end := sub.cancel_at_period_end }

/-- The UPDATE users SET subscription_status assignment. -/
def statusSetter (v : String) : User → User :=
  fun x => { x with subscription_status := v }

theorem hsc_users (sub : StripeSubscription) (db : DB) (u : User)
    (hu : getUserByStripeCustomer db sub.customer = some u) :
    (handleSubscriptionCreated sub db).users =
      updateWhere (fun x => x.id == u.id) (statusSetter sub.status)
        db.users := by
  simp only [handleSubscriptionCreated, hu, createUserAlert,
    apply_ite DB.users, ite_self]
  rfl

theorem hsc_subscriptions (sub : StripeSubscription) (db : DB) (u : User)
    (hu : getUserByStripeCustomer db sub.customer = some u) :
    (handleSubscriptionCreated sub db).subscriptions =
      if db.subscriptions.any
          (fun r => r.stripe_subscription_id == sub.id) then
        updateWhere (fun r => r.stripe_subscription_id == sub.id)
          (subUpdater sub) db.subscriptions
      else
        db.subscriptions ++
          [⟨u.id, sub.id, sub.status, sub.metadata_plan_type.getD "pro",
            sub.current_period_start, sub.current_period_end,
            sub.cancel_at_period_end, db.subSeq⟩] := by
  simp only [handleSubscriptionCreated, hu, createUserAlert,
    apply_ite DB.subscriptions]
  rfl

theorem exists_id_after_update (q : User → Bool) (g : User → User)
    (hg : ∀ x, (g x).id = x.id) (l : List User) (uid : Nat)
    (h : ∃ x ∈ l, x.id = uid) :
    ∃ x ∈ updateWhere q g l, x.id = uid := by
  obtain ⟨x, hx, hid⟩ := h
  refine ⟨if q x then g x else x, ?_, ?_⟩
  · exact List.mem_map_of_mem _ hx
  · by_cases hq : q x <;> simp [hq, hg x, hid]

/-- C2 (confirmed).  When the customer reference of a SubscriptionCreated
event resolves to user u and the store respects the uniqueness of the
billing subscription reference (at most one row), applying the handler twice
produces the same subscriptions table and the same users table as applying
it once; after either one or two applications exactly one subscription row
carries the billing reference of the event and the user reads back the
event status. -/
theorem C2_subscription_created_idempotent (sub : StripeSubscription)
    (db : DB) (u : User)
    (hu : getUserByStripeCustomer db sub.customer = some u)
    (hkey : db.subscriptions.countP
      (fun r => r.stripe_subscription_id == sub.id) ≤ 1) :
    (handleSubscriptionCreated sub
        (handleSubscriptionCreated sub db)).subscriptions =
      (handleSubscriptionCreated sub db).subscriptions ∧
    (handleSubscriptionCreated sub (handleSubscriptionCreated sub db)).users =
      (handleSubscriptionCreated sub db).users ∧
    (handleSubscriptionCreated sub db).subscriptions.countP
      (fun r => r.stripe_subscription_id == sub.id) = 1 ∧
    (handleSubscriptionCreated sub
        (handleSubscriptionCreated sub db)).subscriptions.countP
      (fun r => r.stripe_subscription_id == sub.id) = 1 ∧
    getStatusById (handleSubscriptionCreated sub db) u.id = some sub.status ∧
    getStatusById (handleSubscriptionCreated sub
      (handleSubscriptionCreated sub db)) u.id = some sub.status := by
  have humem : u ∈ db.users := List.mem_of_find?_eq_some hu
  -- the resolved user after the first application
  have hu1 : getUserByStripeCustomer (handleSubscriptionCreated sub db)
      sub.customer = some (statusSetter sub.status u) := by
    unfold getUserByStripeCustomer at hu ⊢
    rw [hsc_users sub db u hu, getUserByStripeCustomer_updateWhere
      sub.customer (fun x => x.id == u.id) (statusSetter sub.status)
      (fun x => rfl) db.users, hu]
    simp
  -- count of rows carrying the reference after the first application
  have hcnt1 : (handleSubscriptionCreated sub db).subscriptions.countP
      (fun r => r.stripe_subscription_id == sub.id) = 1 := by
    rw [hsc_subscriptions sub db u hu]
    by_cases hA : db.subscriptions.any
        (fun r => r.stripe_subscription_id == sub.id) = true
    · rw [if_pos hA, countP_updateWhere
        (fun r => r.stripe_subscription_id == sub.id) (subUpdater sub)
        (fun r => r.stripe_subscription_id == sub.id) (fun x => rfl)
        db.subscriptions]
      obtain ⟨x, hx, hqx⟩ := List.any_eq_true.mp hA
      have hpos : 0 < db.subscriptions.countP
          (fun r => r.stripe_subscription_id == sub.id) :=
        List.countP_pos_iff.mpr ⟨x, hx, hqx⟩
      omega
    · rw [if_neg hA, List.countP_append]
      have hzero : db.subscriptions.countP
          (fun r => r.stripe_subscription_id == sub.id) = 0 := by
        rw [List.countP_eq_zero]
        intro a ha
        intro hq
        exact hA (List.any_eq_true.mpr ⟨a, ha, hq⟩)
      simp [hzero]
  -- the table carries a matching row after the first application
  have hany1 : (handleSubscriptionCreated sub db).subscriptions.any
      (fun r => r.stripe_subscription_id == sub.id) = true := by
    rw [List.any_eq_true]
    have hpos : 0 < (handleSubscriptionCreated sub db).subscriptions.countP
        (fun r => r.stripe_subscription_id == sub.id) := by omega
    exact List.countP_pos_iff.mp hpos
  -- second application leaves the subscriptions table unchanged
  have hsubs2 : (handleSubscriptionCreated sub
      (handleSubscriptionCreated sub db)).subscriptions =
      (handleSubscriptionCreated sub db).subscriptions := by
    rw [hsc_subscriptions sub (handleSubscriptionCreated sub db) _ hu1,
      if_pos hany1]
    rw [hsc_subscriptions sub db u hu]
    by_cases hA : db.subscriptions.any
        (fun r => r.stripe_subscription_id == sub.id) = true
    · rw [if_pos hA]
      exact updateWhere_idem
        (fun r => r.stripe_subscription_id == sub.id) (subUpdater sub)
        (fun x => rfl) (fun x => rfl) db.subscriptions
    · rw [if_neg hA]
      apply updateWhere_eq_self
      intro x hx hqx
      rcases List.mem_append.mp hx with hx1 | hx2
      · exfalso
        exact hA (List.any_eq_true.mpr ⟨x, hx1, hqx⟩)
      · rw [List.mem_singleton] at hx2
        rw [hx2]
        rfl
  -- second application leaves the users table unchanged
  have husers2 : (handleSubscriptionCreated sub
      (handleSubscriptionCreated sub db)).users =
      (handleSubscriptionCreated sub db).users := by
    rw [hsc_users sub (handleSubscriptionCreated sub db) _ hu1,
      hsc_users sub db u hu]
    have hid : (statusSetter sub.status u).id = u.id := rfl
    simp only [hid]
    exact updateWhere_idem (fun x => x.id == u.id) (statusSetter sub.status)
      (fun x => rfl) (fun x => rfl) db.users
  have hst1 : getStatusById (handleSubscriptionCreated sub db) u.id =
      some sub.status := by
    unfold getStatusById
    rw [hsc_users sub db u hu]
    exact getStatus_after_set db.users u.id sub.status ⟨u, humem, rfl⟩
  refine ⟨hsubs2, husers2, hcnt1, ?_, hst1, ?_⟩
  · rw [hsubs2]
    exact hcnt1
  · unfold getStatusById
    rw [husers2]
    unfold getStatusById at hst1
    exact hst1

/-- C2 witness: a concrete redelivered SubscriptionCreated event. -/
theorem C2_witness :
    (handleSubscriptionCreated sampleSub
        (handleSubscriptionCreated sampleSub dbOneUser)).subscriptions =
      (handleSubscriptionCreated sampleSub dbOneUser).subscriptions ∧
    (handleSubscriptionCreated sampleSub
        (handleSubscriptionCreated sampleSub dbOneUser)).users =
      (handleSubscriptionCreated sampleSub dbOneUser).users ∧
    (handleSubscriptionCreated sampleSub dbOneUser).subscriptions.countP
      (fun r => r.stripe_subscription_id == sampleSub.id) = 1 ∧
    (handleSubscriptionCreated sampleSub
        (handleSubscriptionCreated sampleSub dbOneUser)).subscriptions.countP
      (fun r => r.stripe_subscription_id == sampleSub.id) = 1 ∧
    getStatusById (handleSubscriptionCreated sampleSub dbOneUser) 1 =
      some sampleSub.status ∧
    getStatusById (handleSubscriptionCreated sampleSub
      (handleSubscriptionCreated sampleSub dbOneUser)) 1 =
      some sampleSub.status :=
  C2_subscription_created_idempotent sampleSub dbOneUser
    ⟨1, "a@x.com", "h", "A", none, "free", some "cus_1"⟩
    (by decide) (by decide)

/-! ## Claim C8: the entitlement read paths. -/

theorem pickLatest_go_spec (step : Option Subscription → Subscription →
      Option Subscription)
    (hstep : step = fun acc s =>
      match acc with
      | none => some s
      | some b => if s.created_at > b.created_at then some s else some b) :
    ∀ (xs : List Subscription) (b m : Subscription),
      xs.foldl step (some b) = some m →
      (m = b ∨ m ∈ xs) ∧ b.created_at ≤ m.created_at ∧
        ∀ x ∈ xs, x.created_at ≤ m.created_at := by
  intro xs
  induction xs with
  | nil =>
    intro b m h
    rw [List.foldl_nil] at h
    injection h with h2
    exact ⟨Or.inl h2.symm, by rw [h2], fun x hx => absurd hx (by simp)⟩
  | cons x xs ih =>
    intro b m h
    rw [List.foldl_cons, hstep] at h
    by_cases hgt : x.created_at > b.created_at
    · simp only [if_pos hgt] at h
      rw [← hstep] at h
      obtain ⟨hmem, hle, hall⟩ := ih x m h
      refine ⟨?_, ?_, ?_⟩
      · rcases hmem with hm | hm
        · exact Or.inr (by rw [hm]; exact List.mem_cons_self x xs)
        · exact Or.inr (List.mem_cons_of_mem x hm)
      · omega
      · intro y hy
        rcases List.mem_cons.mp hy with hy1 | hy2
        · rw [hy1]; exact hle
        · exact hall y hy2
    · simp only [if_neg hgt] at h
      rw [← hstep] at h
      obtain ⟨hmem, hle, hall⟩ := ih b m h
      refine ⟨?_, hle, ?_⟩
      · rcases hmem with hm | hm
        · exact Or.inl hm
        · exact Or.inr (List.mem_cons_of_mem x hm)
      · intro y hy
        rcases List.mem_cons.mp hy with hy1 | hy2
        · rw [hy1]; omega
        · exact hall y hy2

theorem pickLatest_go_isSome (step : Option Subscription → Subscription →
      Option Subscription)
    (hstep : step = fun acc s =>
      match acc with
      | none => some s
      | some b => if s.created_at > b.created_at then some s else some b) :
    ∀ (xs : List Subscription) (b : Subscription),
      ∃ m, xs.foldl step (some b) = some m := by
  intro xs
  induction xs with
  | nil => intro b; exact ⟨b, rfl⟩
  | cons x xs ih =>
    intro b
    rw [List.foldl_cons, hstep]
    by_cases hgt : x.created_at > b.created_at
    · simp only [if_pos hgt]
      rw [← hstep]
      exact ih x
    · simp only [if_neg hgt]
      rw [← hstep]
      exact ih b

theorem pickLatest_spec (L : List Subscription) (m : Subscription)
    (h : pickLatest L = some m) :
    m ∈ L ∧ ∀ x ∈ L, x.created_at ≤ m.created_at := by
  cases L with
  | nil => cases h
  | cons x xs =>
    unfold pickLatest at h
    rw [List.foldl_cons] at h
    obtain ⟨hmem, -, hall⟩ := pickLatest_go_spec _ rfl xs x m h
    refine ⟨?_, ?_⟩
    · rcases hmem with hm | hm
      · rw [hm]; exact List.mem_cons_self x xs
      · exact List.mem_cons_of_mem x hm
    · intro y hy
      rcases List.mem_cons.mp hy with hy1 | hy2
      · rw [hy1]
        obtain ⟨-, hle, -⟩ := pickLatest_go_spec _ rfl xs x m h
        exact hle
      · exact hall y hy2

theorem pickLatest_isSome (L : List Subscription) (hne : L ≠ []) :
    ∃ m, pickLatest L = some m := by
  cases L with
  | nil => exact absurd rfl hne
  | cons x xs =>
    unfold pickLatest
    rw [List.foldl_cons]
    exact pickLatest_go_isSome _ rfl xs x

/-- C8 (counterexample).  A store where the user has a trialing pro row
created first and a canceled row created later: the spec currentPlan is the
plan of the trialing row, but getUserStats reads the canceled row (latest
regardless of status) and the dashboard overview reads none (it joins only
on status exactly active). -/
def dbC8 : DB :=
  ⟨[⟨1, "a@x.com", "h", "A", none, "canceled", some "cus_1"⟩],
    [],
    [⟨1, "sub_0", "trialing", "basic", 0, 0, false, 0⟩,
      ⟨1, "sub_1", "canceled", "pro", 0, 0, false, 1⟩],
    [], [], [], 2, 2, 0, 0⟩

theorem C8_counterexample :
    currentPlanSpec dbC8 1 = "basic" ∧
    getUserStats_subscription_plan dbC8 1 = "pro" ∧
    overviewPlanType dbC8 1 = "free" ∧
    getUserStats_subscription_plan dbC8 1 ≠ currentPlanSpec dbC8 1 ∧
    overviewPlanType dbC8 1 ≠ currentPlanSpec dbC8 1 := by
  decide

/-- C8 (amended).  The two entitlement read paths of the code behave as
follows: getUserStats reads the plan type of the most-recently-created
subscription row of the user irrespective of its status (free when the user
has no rows), and the dashboard overview reads the plan type of the
(unique) row with status exactly active (free when the user has none); the
spec currentPlan definition (most recent active-like row) is implemented by
neither. -/
theorem C8_read_paths (db : DB) (uid : Nat) :
    ((db.subscriptions.filter fun s => s.user_id == uid) = [] →
      getUserStats_subscription_plan db uid = "free") ∧
    (∀ r, r ∈ db.subscriptions → r.user_id = uid →
      (∀ x ∈ db.subscriptions, x.user_id = uid → x ≠ r →
        x.created_at < r.created_at) →
      getUserStats_subscription_plan db uid = r.plan_type) ∧
    ((∀ x ∈ db.subscriptions, ¬(x.user_id = uid ∧ x.status = "active")) →
      overviewPlanType db uid = "free") ∧
    (∀ r, r ∈ db.subscriptions → r.user_id = uid → r.status = "active" →
      (∀ x ∈ db.subscriptions, x.user_id = uid → x.status = "active" →
        x = r) →
      overviewPlanType db uid = r.plan_type) := by
  refine ⟨?_, ?_, ?_, ?_⟩
  · intro hnil
    unfold getUserStats_subscription_plan latestSubscriptionRow
    rw [hnil]
    rfl
  · intro r hr hruid hmax
    have hrf : r ∈ db.subscriptions.filter fun s => s.user_id == uid :=
      List.mem_filter.mpr ⟨hr, by simp [hruid]⟩
    obtain ⟨m, hm⟩ := pickLatest_isSome _ (List.ne_nil_of_mem hrf)
    obtain ⟨hmem, hall⟩ := pickLatest_spec _ m hm
    have hmr : m = r := by
      by_contra hne
      have hmf := List.mem_filter.mp hmem
      have hmuid : m.user_id = uid := by
        have := hmf.2
        rwa [beq_iff_eq] at this
      have h1 := hmax m hmf.1 hmuid hne
      have h2 := hall r hrf
      omega
    unfold getUserStats_subscription_plan latestSubscriptionRow
    rw [hm, hmr]
    rfl
  · intro hno
    unfold overviewPlanType
    have hf : db.subscriptions.find?
        (fun s => s.user_id == uid && s.status == "active") = none := by
      rw [List.find?_eq_none]
      intro x hx hp
      rw [Bool.and_eq_true, beq_iff_eq, beq_iff_eq] at hp
      exact hno x hx hp
    rw [hf]
    rfl
  · intro r hr hruid hract huniq
    unfold overviewPlanType
    have hf : db.subscriptions.find?
        (fun s => s.user_id == uid && s.status == "active") = some r := by
      cases hf0 : db.subscriptions.find?
          (fun s => s.user_id == uid && s.status == "active") with
      | none =>
        rw [List.find?_eq_none] at hf0
        exact absurd (by simp [hruid, hract]) (hf0 r hr)
      | some w =>
        have hpw := List.find?_some hf0
        have hwm := List.mem_of_find?_eq_some hf0
        rw [Bool.and_eq_true, beq_iff_eq, beq_iff_eq] at hpw
        rw [huniq w hwm hpw.1 hpw.2]
    rw [hf]
    rfl

/-- C8 witness: the amended read-path characterizations at concrete
stores. -/
theorem C8_witness :
    getUserStats_subscription_plan emptyDB 1 = "free" ∧
    getUserStats_subscription_plan dbUserWithSub 1 = "pro" ∧
    overviewPlanType emptyDB 1 = "free" ∧
    overviewPlanType dbUserWithSub 1 = "pro" :=
  ⟨(C8_read_paths emptyDB 1).1 (by decide),
    (C8_read_paths dbUserWithSub 1).2.1
      ⟨1, "sub_1", "active", "pro", 0, 1000, false, 0⟩
      (by decide) (by decide) (by decide),
    (C8_read_paths emptyDB 1).2.2.1 (by decide),
    (C8_read_paths dbUserWithSub 1).2.2.2
      ⟨1, "sub_1", "active", "pro", 0, 1000, false, 0⟩
      (by decide) (by decide) (by decide) (by decide)⟩

/-! ## Claim C9: which operations write users.subscription_status. -/

theorem status_inj (db2 db : DB) (uid : Nat) (s t : String)
    (husers : db2.users = db.users)
    (hb : getStatusById db uid = some s)
    (ha : getStatusById db2 uid = some t) : s = t := by
  unfold getStatusById at hb ha
  rw [husers, hb] at ha
  exact Option.some.inj ha

theorem getStatus_update_preserve (q : User → Bool) (g : User → User)
    (hid : ∀ x, (g x).id = x.id)
    (hst : ∀ x, (g x).subscription_status = x.subscription_status)
    (l : List User) (uid : Nat) :
    ((updateWhere q g l).find? (fun x => x.id == uid)).map
        (·.subscription_status) =
      ((l.find? fun x => x.id == uid)).map (·.subscription_status) := by
  rw [find?_updateWhere q g (fun x => x.id == uid)
    (fun x => by by_cases hq : q x <;> simp [hq, hid x]) l]
  cases hfl : l.find? (fun x => x.id == uid) with
  | none => rfl
  | some w =>
    by_cases hq : q w <;> simp [hq, hst w]

theorem status_inj_update (db2 db : DB) (uid : Nat) (s t : String)
    (q : User → Bool) (g : User → User)
    (husers : db2.users = updateWhere q g db.users)
    (hid : ∀ x, (g x).id = x.id)
    (hst : ∀ x, (g x).subscription_status = x.subscription_status)
    (hb : getStatusById db uid = some s)
    (ha : getStatusById db2 uid = some t) : s = t := by
  unfold getStatusById at hb ha
  rw [husers, getStatus_update_preserve q g hid hst db.users uid, hb] at ha
  exact Option.some.inj ha

theorem status_inj_append (db2 db : DB) (uid : Nat) (s t : String)
    (l2 : List User) (husers : db2.users = db.users ++ l2)
    (hb : getStatusById db uid = some s)
    (ha : getStatusById db2 uid = some t) : s = t := by
  unfold getStatusById at hb ha
  rw [husers] at ha
  cases hfl : db.users.find? (fun x => x.id == uid) with
  | none =>
    rw [hfl] at hb
    cases hb
  | some w =>
    rw [hfl] at hb
    rw [List.find?_append, hfl] at ha
    have hor : (some w).or (l2.find? fun x => x.id == uid) = some w := rfl
    rw [hor] at ha
    exact Option.some.inj (hb.symm.trans ha)

theorem status_inj_delete (db2 db : DB) (uid uidDel : Nat) (s t : String)
    (husers : db2.users = deleteWhere (fun u => u.id == uidDel) db.users)
    (hb : getStatusById db uid = some s)
    (ha : getStatusById db2 uid = some t) : s = t := by
  unfold getStatusById at hb ha
  rw [husers] at ha
  unfold deleteWhere at ha
  by_cases hd : uid = uidDel
  · rw [find?_filter_none (fun x => x.id == uid)
      (fun x => !(x.id == uidDel))
      (fun x hx => by
        rw [beq_iff_eq] at hx
        simp [hx, hd]) db.users] at ha
    cases ha
  · rw [find?_filter_of_imp (fun x => x.id == uid)
      (fun x => !(x.id == uidDel))
      (fun x hx => by
        rw [beq_iff_eq] at hx
        simp [hx, hd]) db.users, hb] at ha
    exact Option.some.inj ha

/-- C9 (counterexample).  POST /api/subscriptions/create is not a webhook
event handler, yet it overwrites users.subscription_status: creating a pro
subscription whose Stripe response carries status trialing moves the user
from free to trialing. -/
theorem C9_counterexample :
    isWebhookHandlerOp (Op.subscriptionCreate 1 "pro" "cus_9" sampleSub) =
      false ∧
    getStatusById dbOneUser 1 = some "free" ∧
    getStatusById (applyOp (fun _ _ => true) (fun _ => none)
      (Op.subscriptionCreate 1 "pro" "cus_9" sampleSub) dbOneUser) 1 =
      some "trialing" := by
  decide

/-- C9 (amended).  users.subscription_status is written only by the three
subscription webhook handlers, POST /api/subscriptions/create, and the
immediate branch of DELETE /api/subscriptions/cancel.  Every other modelled
operation preserves the subscription_status of every user that exists
before and after it. -/
theorem C9_status_writers (bcompare : String → String → Bool)
    (verify : String → Option Nat) (op : Op) (db : DB) (uid : Nat)
    (s t : String) (hW : writesSubscriptionStatus op = false)
    (hbefore : getStatusById db uid = some s)
    (hafter : getStatusById (applyOp bcompare verify op db) uid = some t) :
    s = t := by
  cases op with
  | register email password passwordHash nm company token now =>
    simp only [applyOp] at hafter
    unfold registerOp at hafter
    split_ifs at hafter
    case _ => exact status_inj _ db uid s t rfl hbefore hafter
    case _ => exact status_inj _ db uid s t rfl hbefore hafter
    case _ => exact status_inj _ db uid s t rfl hbefore hafter
    case _ => exact status_inj _ db uid s t rfl hbefore hafter
    case _ => exact status_inj_append _ db uid s t _ rfl hbefore hafter
  | login email password token now =>
    refine status_inj _ db uid s t ?_ hbefore hafter
    simp only [applyOp]
    unfold loginOp
    repeat' split
    all_goals rfl
  | logout token? =>
    refine status_inj _ db uid s t ?_ hbefore hafter
    simp only [applyOp]
    unfold logoutOp
    repeat' split
    all_goals rfl
  | authAccess now token? =>
    refine status_inj _ db uid s t ?_ hbefore hafter
    simp only [applyOp]
    unfold requireAuth
    repeat' split
    all_goals rfl
  | changePassword token currentPassword newPassword newHash =>
    simp only [applyOp] at hafter
    unfold changePasswordOp at hafter
    repeat' split at hafter
    all_goals
      first
        | exact status_inj _ db uid s t rfl hbefore hafter
        | exact status_inj_update _ db uid s t _ _ rfl (by intro x; rfl)
            (by intro x; rfl) hbefore hafter
  | updateProfile uid2 nm company =>
    simp only [applyOp] at hafter
    unfold updateProfileOp at hafter
    repeat' split at hafter
    all_goals
      first
        | exact status_inj _ db uid s t rfl hbefore hafter
        | exact status_inj_update _ db uid s t _ _ rfl (by intro x; rfl)
            (by intro x; rfl) hbefore hafter
  | markAlertRead uid2 alertId =>
    exact status_inj _ db uid s t rfl hbefore hafter
  | markAllAlertsRead uid2 =>
    exact status_inj _ db uid s t rfl hbefore hafter
  | deleteAlert uid2 alertId =>
    exact status_inj _ db uid s t rfl hbefore hafter
  | deleteAccount uid2 password =>
    simp only [applyOp] at hafter
    unfold deleteAccountOp at hafter
    repeat' split at hafter
    all_goals
      first
        | exact status_inj _ db uid s t rfl hbefore hafter
        | exact status_inj_delete _ db uid uid2 s t rfl hbefore hafter
  | setupStripeIntegration uid2 =>
    simp only [applyOp] at hafter
    unfold setupStripeIntegrationOp at hafter
    repeat' split at hafter
    all_goals exact status_inj _ db uid s t rfl hbefore hafter
  | setupOAuthIntegration uid2 itype iname =>
    simp only [applyOp] at hafter
    unfold setupOAuthIntegrationOp at hafter
    repeat' split at hafter
    all_goals exact status_inj _ db uid s t rfl hbefore hafter
  | updateIntegration uid2 integId iname active =>
    simp only [applyOp] at hafter
    unfold updateIntegrationOp at hafter
    repeat' split at hafter
    all_goals exact status_inj _ db uid s t rfl hbefore hafter
  | deleteIntegration uid2 integId =>
    simp only [applyOp] at hafter
    unfold deleteIntegrationOp at hafter
    repeat' split at hafter
    all_goals exact status_inj _ db uid s t rfl hbefore hafter
  | syncIntegration uid2 integId =>
    simp only [applyOp] at hafter
    unfold syncIntegrationOp at hafter
    repeat' split at hafter
    all_goals exact status_inj _ db uid s t rfl hbefore hafter
  | dashboardSync uid2 =>
    exact status_inj _ db uid s t rfl hbefore hafter
  | subscriptionCreate uid2 plan_type newCustomerId stripeSub =>
    exact Bool.noConfusion hW
  | subscriptionCancel uid2 immediate stripeSub =>
    have himm : immediate = false := hW
    subst himm
    simp only [applyOp] at hafter
    unfold subscriptionCancelOp at hafter
    repeat' split at hafter
    all_goals
      first
        | exact status_inj _ db uid s t rfl hbefore hafter
        | simp_all
  | subscriptionReactivate uid2 =>
    simp only [applyOp] at hafter
    unfold subscriptionReactivateOp at hafter
    repeat' split at hafter
    all_goals exact status_inj _ db uid s t rfl hbefore hafter
  | cleanupSessions now =>
    exact status_inj _ db uid s t rfl hbefore hafter
  | webhookSubscriptionCreated sub => exact Bool.noConfusion hW
  | webhookSubscriptionUpdated sub => exact Bool.noConfusion hW
  | webhookSubscriptionDeleted sub => exact Bool.noConfusion hW
  | webhookPaymentSucceeded invoice =>
    simp only [applyOp] at hafter
    unfold handlePaymentSucceeded at hafter
    repeat' split at hafter
    all_goals exact status_inj _ db uid s t rfl hbefore hafter
  | webhookPaymentFailed invoice =>
    simp only [applyOp] at hafter
    unfold handlePaymentFailed at hafter
    repeat' split at hafter
    all_goals exact status_inj _ db uid s t rfl hbefore hafter
  | webhookTrialWillEnd sub =>
    simp only [applyOp] at hafter
    unfold handleTrialWillEnd at hafter
    repeat' split at hafter
    all_goals exact status_inj _ db uid s t rfl hbefore hafter
  | webhookCustomerCreated customer =>
    simp only [applyOp] at hafter
    unfold handleCustomerCreated at hafter
    repeat' split at hafter
    all_goals
      first
        | exact status_inj _ db uid s t rfl hbefore hafter
        | exact status_inj_update _ db uid s t _ _ rfl (by intro x; rfl)
            (by intro x; rfl) hbefore hafter

/-- C9 witness: a non-writer operation (logout) concretely preserving the
status read. -/
theorem C9_witness :
    writesSubscriptionStatus (Op.logout (some "tok")) = false ∧
    getStatusById dbOneUser 1 = some "free" ∧
    getStatusById (applyOp (fun _ _ => true) (fun _ => none)
      (Op.logout (some "tok")) dbOneUser) 1 = some "free" ∧
    "free" = "free" :=
  ⟨rfl, by decide, by decide,
    C9_status_writers (fun _ _ => true) (fun _ => none)
      (Op.logout (some "tok")) dbOneUser 1 "free" "free" rfl
      (by decide) (by decide)⟩

end Bizlytics
